import Mathlib

/-!
Verification of the natural-language specification of micropython-lib's
LoRa modem driver (`micropython/lora/lora/lora/modem.py`) and USB
mass-storage class module (`micropython/usbd/msc.py`) against a shallow
embedding of the source code.

Conventions of the embedding:
* Python integers are `Int` (or `Nat` where the source value is always a
  byte count, payload length, tick count or register value); Python `//`
  (floor division) is `Int.fdiv`.
* `bytearray` / `bytes` values are `List Nat`, one entry per byte.
* Exceptions are `Except`.
* State-mutating methods become functions `State → State` (or
  `State → State × Result`); hardware oracles (ticks, chip idle status,
  packet data) are passed in an explicit environment record.
-/

set_option maxHeartbeats 1000000

deriving instance DecidableEq for Except

namespace Lora

/-- Configuration fields of `BaseModem` used by the time-on-air
calculation (`__init__` of `BaseModem` in modem.py), plus the
chip-specific symbol offsets returned by `_symbol_offsets()`
(`(0, 0)` in the base class, `(2, -8)` for SF5/6 on SX126x). -/
structure Cfg where
  sf : Nat
  bw_hz : Nat
  coding_rate : Nat
  preamble_len : Nat
  crc_en : Bool
  implicit_header : Bool
  s_o : Nat
  b_o : Int
deriving DecidableEq

/-- `BaseModem._get_t_sym_us`: `1000_000 * (1 << self._sf) // self._bw_hz`. -/
def get_t_sym_us (c : Cfg) : Int :=
  Int.fdiv (1000000 * 2 ^ c.sf) c.bw_hz

/-- `BaseModem._get_ldr_en`: `self._get_t_sym_us() >= 16000`. -/
def get_ldr_en (c : Cfg) : Bool :=
  16000 ≤ get_t_sym_us c

/-- Python `int(self._get_ldr_en())` (bools are 0/1 in arithmetic). -/
def ldrInt (c : Cfg) : Int :=
  if get_ldr_en c then 1 else 0

/-- The expression assigned to `bits` in `BaseModem.get_n_symbols_x4`
(before the `max(bits, 0)` clamp). -/
def payload_bits (c : Cfg) (payload_len : Nat) : Int :=
  8 * payload_len + (if c.crc_en then 16 else 0) - 4 * c.sf + 8 + c.b_o
    + (if c.implicit_header then 0 else 20)

/-- `BaseModem.get_n_symbols_x4` from modem.py. -/
def get_n_symbols_x4 (c : Cfg) (payload_len : Nat) : Int :=
  let bits := max (payload_bits c payload_len) 0
  let bps : Int := ((c.sf : Int) - 2 * ldrInt c) * 4
  17 + 4 * ((c.preamble_len : Int) + c.s_o + 8
    + Int.fdiv (bits + bps - 1) bps * c.coding_rate)

/-- `BaseModem.get_time_on_air_us`:
`self._get_t_sym_us() * self.get_n_symbols_x4(payload_len) // 4`. -/
def get_time_on_air_us (c : Cfg) (payload_len : Nat) : Int :=
  Int.fdiv (get_t_sym_us c * get_n_symbols_x4 c payload_len) 4

/-- The symbol-count formula exactly as the spec states it (claim C1):
`n_symbols_x4 = 17 + 4*(preamble_len + s_o + 8 + ceil(max(0, bits) / (4*(sf - 2*ldr_en))) * coding_rate)`,
with a true mathematical ceiling of the rational quotient. -/
def spec_n_symbols_x4 (c : Cfg) (payload_len : Nat) : Int :=
  17 + 4 * ((c.preamble_len : Int) + c.s_o + 8
    + ⌈((max (payload_bits c payload_len) 0 : Int) : ℚ)
        / ((4 * ((c.sf : Int) - 2 * ldrInt c) : Int) : ℚ)⌉ * c.coding_rate)

/-- The configuration of the concrete example in claim C1: SF=8,
BW=125000 Hz, CR=5, preamble 12, CRC on, explicit header, offsets (0,0). -/
def sf8Cfg : Cfg :=
  ⟨8, 125000, 5, 12, true, false, 0, 0⟩

/-- The power-on-reset configuration from `BaseModem.__init__`: SF=7,
BW=125000 Hz, CR=5, preamble 12, CRC on, explicit header, offsets (0,0). -/
def resetCfg : Cfg :=
  ⟨7, 125000, 5, 12, true, false, 0, 0⟩

/-- The receive state `self._rx`: `False`, `True` (continuous or
no-timeout receive), or an int deadline (a `utime.ticks_ms` value). -/
inductive RxSt
  | off
  | on
  | untilTicks (t : Nat)
deriving DecidableEq

/-- State of the optional antenna switch collaborator (`self._ant_sw`). -/
inductive Ant
  | idle
  | rx
  | tx
deriving DecidableEq

/-- The mutable state of `BaseModem` touched by the send/receive state
machine, plus the hardware IRQ flag register the driver reads with
`_get_irq()` and clears with `_clear_irq()`.  `isr_count` is ghost
instrumentation counting invocations of `_radio_isr` (used to state that
`standby()` posts exactly one synthetic ISR edge). -/
structure Modem where
  rx : RxSt
  rx_continuous : Bool
  rx_length : Nat
  tx : Bool
  last_irq : Option Nat
  irq_flags : Nat
  has_ant : Bool
  ant : Ant
  crc_errors : Nat
  rx_crc_error : Bool
  isr_count : Nat
deriving DecidableEq

/-- Per-call hardware/clock oracle: the `utime.ticks_ms()` reading, the
chip's `is_idle()` answer, the chip's `_rx_flags_success` verdict and the
payload `_read_packet` would return. -/
structure Env where
  ticks : Nat
  is_idle : Bool
  rx_success : Bool
  packet : List Nat
deriving DecidableEq

/-- `BaseModem._radio_isr`: records the timestamp (and would invoke the
optional callback, which has no effect on modem state). -/
def radio_isr (e : Env) (s : Modem) : Modem :=
  { s with last_irq := some e.ticks, isr_count := s.isr_count + 1 }

/-- `self._ant_sw.idle()` guarded by `if self._ant_sw:`. -/
def antIdle (s : Modem) : Modem :=
  if s.has_ant then { s with ant := Ant.idle } else s

/-- `BaseModem.standby`: `_standby()` (chip mode change, outside this
state record), clear `_rx`, `_tx`, `_last_irq`, idle the antenna switch,
then invoke `_radio_isr(None)` as a "soft ISR". -/
def standby (e : Env) (s : Modem) : Modem :=
  radio_isr e (antIdle { s with rx := RxSt.off, tx := false, last_irq := none })

/-- `BaseModem._get_last_irq`: `_last_irq` if set, else `ticks_ms()`. -/
def get_last_irq (e : Env) (s : Modem) : Nat :=
  s.last_irq.getD e.ticks

/-- MicroPython tick wrap period (`utime.ticks_ms` wraps at 2^30 on most
ports; `ticks_diff`/`ticks_add` use this period). -/
def TICKS_PERIOD : Nat := 2 ^ 30

/-- `utime.ticks_diff(a, b)`: signed wraparound difference. -/
def ticks_diff (a b : Nat) : Int :=
  ((a : Int) - (b : Int) + 2 ^ 29).emod TICKS_PERIOD - 2 ^ 29

/-- `utime.ticks_add(a, d)`: wraparound addition. -/
def ticks_add (a : Nat) (d : Int) : Nat :=
  (((a : Int) + d).emod TICKS_PERIOD).toNat

/-- `BaseModem._end_recv`: clear receive state, idle the antenna switch. -/
def end_recv (s : Modem) : Modem :=
  antIdle { s with rx := RxSt.off }

/-- `BaseModem.start_recv`: raises `ValueError` (modelled as
`Except.error`) when `continuous` is combined with a timeout; otherwise
sets `_rx`, `_rx_continuous`, `_rx_length` and arms the antenna switch
when no send is in flight. -/
def start_recv (e : Env) (timeout_ms : Option Int) (continuous : Bool)
    (rx_length : Nat) (s : Modem) : Except Unit Modem :=
  if continuous ∧ timeout_ms ≠ none then Except.error ()
  else
    let s := match timeout_ms with
      | some t => { s with rx := RxSt.untilTicks (ticks_add e.ticks t) }
      | none => { s with rx := RxSt.on }
    let s := { s with rx_continuous := continuous, rx_length := rx_length }
    Except.ok (if s.has_ant ∧ s.tx = false then { s with ant := Ant.rx } else s)

/-- The numeric value of `self._rx` as Python arithmetic sees it:
`bool` is a subclass of `int`, so `False == 0`, `True == 1`, and an int
deadline is itself. -/
def rx_int_val : RxSt → Nat
  | RxSt.off => 0
  | RxSt.on => 1
  | RxSt.untilTicks t => t

/-- `BaseModem._check_recv`: resume an interrupted receive.  Returns
`true` when the modem is still receiving (or sending with a receive
pending).  Two Python subtleties are modelled exactly:
`if not self._rx` is a truthiness test, so both `False` and an int
deadline equal to 0 mean "not receiving"; and `isinstance(rx, int)` is
also true for `rx = True` (bool subclasses int), so the deadline
arithmetic runs for every remaining value of `rx` with its numeric
value (`ticks_diff(True, now)` computes with 1) — on a nonpositive
result the receive is ended and a soft ISR scheduled, otherwise
`start_recv` is re-issued (which raises `ValueError` when
`rx_continuous` is set, since the computed timeout is not `None`) and
the original `_rx` value is restored. -/
def check_recv (e : Env) (s : Modem) : Except Unit (Modem × Bool) :=
  if s.rx = RxSt.off ∨ s.rx = RxSt.untilTicks 0 then Except.ok (s, false)
  else if e.is_idle = false then Except.ok (s, true)
  else
    if ticks_diff (rx_int_val s.rx) e.ticks ≤ 0 then
      Except.ok (radio_isr e (end_recv s), false)
    else
      match start_recv e (some (ticks_diff (rx_int_val s.rx) e.ticks))
          s.rx_continuous s.rx_length s with
      | Except.error u => Except.error u
      | Except.ok s1 => Except.ok ({ s1 with rx := s.rx }, true)

/-- Result of `BaseModem.poll_send`: `False` (no send in flight), `True`
(send in progress), or the completion timestamp. -/
inductive SendPoll
  | idle
  | busy
  | completed (t : Nat)
deriving DecidableEq

/-- `BaseModem.poll_send`, parametrised by the chip-specific
`_IRQ_TX_COMPLETE` mask.  `_clear_irq()` with no arguments clears the
whole IRQ register. -/
def poll_send (txMask : Nat) (e : Env) (s : Modem) :
    Except Unit (Modem × SendPoll) :=
  if s.tx = false then Except.ok (s, SendPoll.idle)
  else if s.irq_flags &&& txMask = 0 then Except.ok (s, SendPoll.busy)
  else
    match check_recv e (antIdle { s with irq_flags := 0, tx := false }) with
    | Except.error u => Except.error u
    | Except.ok r => Except.ok (r.1, SendPoll.completed (get_last_irq e s))

/-- Result of `BaseModem.poll_recv`: `False`, `True`, or a packet. -/
inductive RecvPoll
  | nothing
  | busy
  | pkt (p : List Nat)
deriving DecidableEq

/-- The packet read-out of `BaseModem.poll_recv`: when the receive was
valid (or invalid-CRC packets are surfaced), read the packet and, if the
receive is not continuous, end it.  The IRQ-flag-handling block of
`poll_recv` is split into `recv_irq_step` → `recv_irq_crc` → this
function; `recv_irq_step` clears only the `final = flags & _IRQ_RX_COMPLETE`
bits, and since `final` is a submask of `flags` the cleared register is
`flags ^^^ final`. -/
def recv_irq_read (e : Env) (s : Modem) : Modem × Option (List Nat) :=
  if e.rx_success || s.rx_crc_error then
    (if s.rx_continuous = false then end_recv s else s, some e.packet)
  else (s, none)

/-- The CRC-error accounting of `poll_recv` (`if not ok: crc_errors += 1`),
followed by the packet read-out. -/
def recv_irq_crc (e : Env) (s : Modem) : Modem × Option (List Nat) :=
  recv_irq_read e
    (if e.rx_success = false then { s with crc_errors := s.crc_errors + 1 } else s)

/-- Entry to the IRQ block: nothing happens unless an RX-complete flag
is latched. -/
def recv_irq_step (rxMask : Nat) (e : Env) (s : Modem) :
    Modem × Option (List Nat) :=
  if s.irq_flags &&& rxMask ≠ 0 then
    recv_irq_crc e { s with irq_flags := s.irq_flags ^^^ (s.irq_flags &&& rxMask) }
  else (s, none)

/-- The `packet or res` return value of `poll_recv` (an empty payload is
falsy in Python, so an empty packet falls through to the
`_check_recv()` result). -/
def recv_result (packet : Option (List Nat)) (res : Bool) : RecvPoll :=
  match packet with
  | some p =>
    if p.isEmpty then (if res then RecvPoll.busy else RecvPoll.nothing)
    else RecvPoll.pkt p
  | none => if res then RecvPoll.busy else RecvPoll.nothing

/-- `BaseModem.poll_recv`, parametrised by the chip-specific
`_IRQ_RX_COMPLETE` mask. -/
def poll_recv (rxMask : Nat) (e : Env) (s : Modem) :
    Except Unit (Modem × RecvPoll) :=
  if s.rx = RxSt.off then Except.ok (s, RecvPoll.nothing)
  else if s.tx then Except.ok (s, RecvPoll.busy)
  else
    match check_recv e (recv_irq_step rxMask e s).1 with
    | Except.error u => Except.error u
    | Except.ok r => Except.ok (r.1, recv_result (recv_irq_step rxMask e s).2 r.2)

/-- One entry of a foreground polling sequence: a `poll_send` or a
`poll_recv` call, with the hardware oracle observed by that call. -/
inductive PollOp
  | send (e : Env)
  | recv (e : Env)

/-- Run a sequence of `poll_send`/`poll_recv` calls from a state,
collecting the `poll_send` results.  A raised exception aborts the
sequence. -/
def runPolls (txMask rxMask : Nat) : List PollOp → Modem → List SendPoll
  | [], _ => []
  | PollOp.send e :: ops, s =>
    match poll_send txMask e s with
    | Except.error _ => []
    | Except.ok (s', r) => r :: runPolls txMask rxMask ops s'
  | PollOp.recv e :: ops, s =>
    match poll_recv rxMask e s with
    | Except.error _ => []
    | Except.ok (s', _) => runPolls txMask rxMask ops s'

/-- Is a `poll_send` result the completion timestamp? -/
def isCompleted : SendPoll → Bool
  | SendPoll.completed _ => true
  | _ => false

/-- Number of completion timestamps in a list of `poll_send` results. -/
def completedCount (l : List SendPoll) : Nat :=
  (l.filter isCompleted).length

/-- A modem state with a send in flight and the TX-complete IRQ latched:
used to witness the C4/C5 theorems. -/
def modemSending : Modem :=
  ⟨RxSt.off, false, 255, true, some 55, 1, false, Ant.idle, 0, false, 0⟩

/-- The state `poll_send` produces from `modemSending`. -/
def modemSent : Modem :=
  ⟨RxSt.off, false, 255, false, some 55, 0, false, Ant.idle, 0, false, 0⟩

/-- A freshly constructed modem (`BaseModem.__init__` defaults, no
antenna switch). -/
def modemBoot : Modem :=
  ⟨RxSt.off, false, 255, false, none, 0, false, Ant.idle, 0, false, 0⟩

/-- A concrete hardware oracle. -/
def env0 : Env :=
  ⟨42, true, true, []⟩

end Lora

namespace Msc

/-- Transport stage (`MSCInterface.MSC_STAGE_*`).  `uninit` is the
constructor value `self.stage = None`. -/
inductive Stage
  | uninit
  | cmd
  | data
  | status
  | statusSent
  | needReset
deriving DecidableEq

/-- The parsed Command Block Wrapper (class `CBW`, unpacked with
`ustruct.unpack("<LLLBBB16s", binary)`). -/
structure CBWRec where
  dCBWSignature : Nat
  dCBWTag : Nat
  dCBWDataTransferLength : Nat
  bmCBWFlags : Nat
  bCBWLUN : Nat
  bCBWCBLength : Nat
  CBWCB : List Nat
deriving DecidableEq

/-- Little-endian value of a byte list. -/
def leBytes (l : List Nat) : Nat :=
  l.foldr (fun x acc => x + 256 * acc) 0

/-- `CBW.from_binary`: unpack the 31-byte little-endian frame
`<LLLBBB16s`. -/
def cbw_from_binary (b : List Nat) : CBWRec :=
  { dCBWSignature := leBytes (b.take 4)
    dCBWTag := leBytes ((b.drop 4).take 4)
    dCBWDataTransferLength := leBytes ((b.drop 8).take 4)
    bmCBWFlags := b.getD 12 0
    bCBWLUN := b.getD 13 0
    bCBWCBLength := b.getD 14 0
    CBWCB := (b.drop 15).take 16 }

/-- Little-endian 4-byte encoding of a (truncated) value. -/
def le32 (n : Nat) : List Nat :=
  [n % 256, n / 256 % 256, n / 65536 % 256, n / 16777216 % 256]

/-- The sense states used by `StorageDevice` (`NO_SENSE`,
`MEDIUM_NOT_PRESENT`, `INVALID_COMMAND`). -/
inductive Sense
  | noSense
  | mediumNotPresent
  | invalidCommand
deriving DecidableEq

/-- `StorageDevice.sense_values`: the (key, ASC, ASCQ) triple for each
sense state. -/
def sense_values : Sense → Nat × Nat × Nat
  | Sense.noSense => (0x00, 0x00, 0x00)
  | Sense.mediumNotPresent => (0x02, 0x3A, 0x00)
  | Sense.invalidCommand => (0x05, 0x20, 0x00)

/-- The `StorageDevice` state touched by the transport: whether a
filesystem is mounted, the current sense (`self.sense`, `None` until
first set), the write-only attribute `self.sense_key` assigned by
`StorageDevice.reset`, and the pending chunks of a `long_operation`
continuation (each list entry is the byte string one continuation call
returns; the attribute is the empty dict iff the list is empty). -/
structure Storage where
  has_filesystem : Bool
  sense : Option Sense
  sense_key : Option Sense
  long_op : List (List Nat)
deriving DecidableEq

/-- The `StorageDevice` right after construction. -/
def initStorage : Storage :=
  ⟨false, none, none, []⟩

end Msc

namespace Msc.StorageDevice

/-- `StorageDevice.reset`: assigns `self.sense_key = None` (and nothing
else; note the attribute read by `handle_request_sense` is `self.sense`). -/
def reset (st : Msc.Storage) : Msc.Storage :=
  { st with sense_key := none }

/-- Opcodes present in `StorageDevice.scsi_commands`. -/
def scsi_opcodes : List Nat :=
  [0x00, 0x03, 0x12, 0x15, 0x1A, 0x1B, 0x1E, 0x25, 0x23, 0x28, 0x2A, 0x5A]

/-- Opcodes whose `scsi_commands` entry has a `"handler"` key. -/
def scsi_handled : List Nat :=
  [0x00, 0x03, 0x12, 0x1A, 0x25, 0x23, 0x28, 0x5A]

/-- `StorageDevice.validate_cmd`.  The code after the unconditional
`return True` (CBD length checking) is dead and not modelled. -/
def validate_cmd (st : Msc.Storage) (cmd : List Nat) : Msc.Storage × Bool :=
  let op := cmd.headD 0
  if op ∉ scsi_opcodes then
    ({ st with sense := some Msc.Sense.invalidCommand }, false)
  else if op ∉ scsi_handled then
    ({ st with sense := some Msc.Sense.invalidCommand }, false)
  else
    ((if op ≠ 0x03 then { st with sense := some Msc.Sense.noSense } else st), true)

/-- `StorageDevice.handle_request_sense`: projects the current sense
through `sense_values`.  With `self.sense` still `None` the dict lookup
raises `KeyError`, modelled as `Except.error`.  MicroPython's
`ustruct.pack` zero-fills format fields with no matching argument, so the
trailing `3s` field is three zero bytes. -/
def handle_request_sense (st : Msc.Storage) : Except Unit (List Nat) :=
  match st.sense with
  | none => Except.error ()
  | some sk =>
    let v := sense_values sk
    Except.ok ([0x70, 0, v.1] ++ [0, 0, 0, 0] ++ [9] ++ [0, 0, 0, 0]
      ++ [v.2.1, v.2.2, 0] ++ [0, 0, 0])

/-- Zero-padded (and truncated) fixed-width string field, as packed by
`ustruct.pack` with an `Ns` format code. -/
def padTo (n : Nat) (l : List Nat) : List Nat :=
  l.take n ++ List.replicate (n - l.length) 0

/-- ASCII bytes of the vendor string `"MPython"` (7 characters). -/
def vendorBytes : List Nat :=
  [77, 80, 121, 116, 104, 111, 110]

/-- ASCII bytes of the product string `"MicroPython MSC"`
(15 characters). -/
def productBytes : List Nat :=
  [77, 105, 99, 114, 111, 80, 121, 116, 104, 111, 110, 32, 77, 83, 67]

/-- ASCII bytes of the revision string `"0000"`. -/
def revisionBytes : List Nat :=
  [48, 48, 48, 48]

/-- The 36-byte standard INQUIRY response packed by `handle_inquiry`
for `evpd == 0` (`ustruct.pack(">BBBBBBBB8s16s4s", ...)`). -/
def inquiryStdResponse : List Nat :=
  [0x00, 0x80, 0x00, 0x02, 32, 0x00, 0x00, 0x00]
    ++ padTo 8 vendorBytes ++ padTo 16 productBytes ++ padTo 4 revisionBytes

/-- `StorageDevice.handle_inquiry`.  `cmd` must hold at least the five
bytes unpacked by `ustruct.unpack(">BBBBB", cmd)`. -/
def handle_inquiry (st : Msc.Storage) (cmd : List Nat) :
    Msc.Storage × Except Unit (List Nat) :=
  let evpd := cmd.getD 1 0
  let page_code := cmd.getD 2 0
  if evpd = 0 then
    (st, Except.ok inquiryStdResponse)
  else if page_code = 0x80 then
    (st, Except.ok ([0x00, 0x80, 0x00, 0x0A] ++ padTo 10 []))
  else
    ({ st with sense := some Msc.Sense.invalidCommand }, Except.error ())

end Msc.StorageDevice

namespace Msc

/-- The kinds of `BadCbw` exception raised by
`MSCInterface.validate_cbw`, one per `raise` site. -/
inductive BadCbwErr
  | wrongLength
  | wrongSig
  | notMeaningful
  | wrongLun
deriving DecidableEq

/-- A buffer submitted on the bulk-IN endpoint, tagged by its submitting
call site: a DATA-phase buffer (`proc_transfer_data`), the zero padding
`send_csw` sends when no data was transferred, or a CSW frame. -/
inductive Tx
  | dataOut (b : List Nat)
  | padOut (b : List Nat)
  | cswOut (b : List Nat)
deriving DecidableEq

/-- The `MSCInterface` state: transport stage, cumulative
`transferred_length` of the DATA phase, the 31-byte CBW receive buffer
`rx_data`, the parsed `cbw`, the `csw` fields, the endpoint stall
status, the pending DATA-phase buffer `data`, the fixed LUN, and the
storage device.  `pending_cbw` is ghost state recording that
`prepare_cbw` submitted an OUT transfer whose completion callback has
not yet run; `sent` is a ghost log of IN-endpoint submissions and
`errors` a ghost log of `BadCbw` exceptions caught by `handle_cbw`. -/
structure MSC where
  stage : Stage
  transferred_length : Int
  rx_data : List Nat
  pending_cbw : Bool
  cbw : CBWRec
  cswTag : Nat
  cswResidue : Int
  cswStatus : Nat
  stall_in : Bool
  stall_out : Bool
  data : List Nat
  lun : Nat
  storage : Storage
  sent : List Tx
  errors : List BadCbwErr
deriving DecidableEq

/-- The `MSCInterface` right after construction (`stage = None`,
`lun = 0`; `rx_data` and `transferred_length` do not exist yet and are
modelled by an empty buffer and 0). -/
def init : MSC :=
  { stage := Stage.uninit
    transferred_length := 0
    rx_data := []
    pending_cbw := false
    cbw := ⟨0, 0, 0, 0, 0, 0, []⟩
    cswTag := 0
    cswResidue := 0
    cswStatus := 0
    stall_in := false
    stall_out := false
    data := []
    lun := 0
    storage := initStorage
    sent := []
    errors := [] }

/-- Outcome of `self.storage_device.handle_cmd(cmd)` as observed by
`handle_cbw`: either a `StorageDevice.StorageError` carrying a CSW
status, or a return value (`None` or a byte string) together with the
storage state the handler left behind (in particular its
`long_operation` continuation chunks). -/
inductive StorageOutcome
  | err (st : Storage) (status : Nat)
  | resp (st : Storage) (r : Option (List Nat))
deriving DecidableEq

end Msc

namespace Msc.MSCInterface

/-- `MSCInterface.prepare_cbw`: reset the stage to CMD, zero
`transferred_length`, allocate a fresh 31-byte `rx_data` buffer and
submit the OUT transfer for the next CBW. -/
def prepare_cbw (s : Msc.MSC) : Msc.MSC :=
  { s with stage := Msc.Stage.cmd
           transferred_length := 0
           rx_data := List.replicate 31 0
           pending_cbw := true }

/-- `MSCInterface.prepare_for_csw`: record the CSW status and move to the
STATUS stage. -/
def prepare_for_csw (status : Nat) (s : Msc.MSC) : Msc.MSC :=
  { s with cswStatus := status, stage := Msc.Stage.status }

/-- `CSW.__bytes__`: `ustruct.pack("<LLLB", ...)` with the fixed
signature `0x53425355`. -/
def csw_bytes (s : Msc.MSC) : List Nat :=
  Msc.le32 0x53425355 ++ Msc.le32 s.cswTag ++ Msc.le32 (s.cswResidue.toNat)
    ++ [s.cswStatus % 256]

/-- `MSCInterface.validate_cbw`: the Valid checks (31-byte length,
signature) raise `BadCbw` (`Except.error`), the Meaningful checks (LUN,
CB length, device LUN) likewise; a wrong stage yields
`CSW.STATUS_PHASE_ERROR` and otherwise the result is
`int(not storage_device.validate_cmd(...))`. -/
def validate_cbw (s : Msc.MSC) : Except Msc.BadCbwErr (Msc.MSC × Nat) :=
  if s.stage ≠ Msc.Stage.cmd then Except.ok (s, 2)
  else if s.rx_data.length ≠ 31 then Except.error Msc.BadCbwErr.wrongLength
  else if s.cbw.dCBWSignature ≠ 0x43425355 then Except.error Msc.BadCbwErr.wrongSig
  else if s.cbw.bCBWLUN > 15 ∨ ¬(0 < s.cbw.bCBWCBLength ∧ s.cbw.bCBWCBLength < 17) then
    Except.error Msc.BadCbwErr.notMeaningful
  else if s.cbw.bCBWLUN ≠ s.lun then Except.error Msc.BadCbwErr.wrongLun
  else
    let r := Msc.StorageDevice.validate_cmd s.storage
      (s.cbw.CBWCB.take s.cbw.bCBWCBLength)
    Except.ok ({ s with storage := r.1 }, if r.2 then 0 else 1)

/-- `MSCInterface.send_csw`, fuelled: when `dCSWDataResidue` is zero it
is recomputed as `dCBWDataTransferLength - transferred_length`; when
nothing was transferred but a residue exists, a zero-filled padding
buffer is sent first and the callback re-enters `send_csw`; finally the
13-byte CSW is submitted and the stage becomes STATUS_SENT. -/
def send_csw : Nat → Msc.MSC → Msc.MSC
  | 0, s => s
  | fuel + 1, s =>
    let s := if s.cswResidue = 0
      then { s with cswResidue :=
              (s.cbw.dCBWDataTransferLength : Int) - s.transferred_length }
      else s
    if s.transferred_length = 0 ∧ s.cswResidue ≠ 0 then
      send_csw fuel
        { s with transferred_length := s.cswResidue
                 sent := s.sent ++ [Msc.Tx.padOut (List.replicate s.cswResidue.toNat 0)] }
    else
      { s with stage := Msc.Stage.statusSent
               sent := s.sent ++ [Msc.Tx.cswOut (csw_bytes s)] }

/-- `MSCInterface.proc_transfer_data`, fuelled over the callback chain.
`xferred` is the `xferred_bytes` argument of the (re-)entry; each
`submit_xfer` on the IN endpoint is modelled as completing in full, so
the next entry carries the submitted buffer's length.  A long-operation
continuation pops the next chunk off `storage.long_op`. -/
def proc_transfer_data : Nat → Nat → Msc.MSC → Msc.MSC
  | 0, _, s => s
  | fuel + 1, xferred, s =>
    let s := { s with transferred_length := s.transferred_length + xferred }
    if s.stage ≠ Msc.Stage.data then s
    else
      let s := if s.data.length > xferred then { s with data := s.data.drop xferred }
               else { s with data := [] }
      let s :=
        if s.data.isEmpty ∧ s.storage.long_op ≠ [] then
          { s with data := s.storage.long_op.headD []
                   storage := { s.storage with long_op := s.storage.long_op.tail } }
        else s
      if s.storage.long_op = [] then
        if s.data.isEmpty then send_csw 2 (prepare_for_csw 0 s)
        else
          let residue := (s.cbw.dCBWDataTransferLength : Int)
            - (s.transferred_length + s.data.length)
          let s := if residue ≠ 0 then
              { s with cswResidue := residue
                       data := s.data ++ List.replicate residue.toNat 0 }
            else s
          proc_transfer_data fuel s.data.length
            { s with sent := s.sent ++ [Msc.Tx.dataOut s.data] }
      else
        proc_transfer_data fuel s.data.length
          { s with sent := s.sent ++ [Msc.Tx.dataOut s.data] }

/-- `MSCInterface.handle_cbw`.  The result of
`self.storage_device.handle_cmd(cmd)` is supplied as `oracle` (the
dispatcher is uninterpreted here; its possible outcomes are a raised
`StorageError`, `None`, or a byte string, together with the storage
state it leaves).  A `BadCbw` from `validate_cbw` stalls both endpoints
and is recorded in the ghost `errors` log. -/
def handle_cbw (oracle : Msc.StorageOutcome) (s : Msc.MSC) : Msc.MSC :=
  let s := { s with cswTag := s.cbw.dCBWTag, cswResidue := 0, cswStatus := 0 }
  match validate_cbw s with
  | Except.error e =>
    { s with stall_in := true, stall_out := true, errors := s.errors ++ [e] }
  | Except.ok (s1, status) =>
    if status ≠ 0 then send_csw 2 (prepare_for_csw status s1)
    else
      let s2 := { s1 with stage := Msc.Stage.data }
      match oracle with
      | Msc.StorageOutcome.err st1 code =>
        send_csw 2 (prepare_for_csw code { s2 with storage := st1 })
      | Msc.StorageOutcome.resp st1 none =>
        send_csw 2 (prepare_for_csw 0 { s2 with storage := st1 })
      | Msc.StorageOutcome.resp st1 (some response) =>
        let s3 := { s2 with storage := st1 }
        if response.length > s3.cbw.dCBWDataTransferLength then
          send_csw 2 (prepare_for_csw 1 s3)
        else if response.length = 0 then send_csw 2 (prepare_for_csw 0 s3)
        else
          proc_transfer_data (st1.long_op.length + 3) 0
            { s3 with data := response }

/-- A host OUT transfer into the fixed-size `rx_data` buffer: at most
`buf.length` bytes are written, the buffer keeps its size. -/
def write_into (host buf : List Nat) : List Nat :=
  let w := host.take buf.length
  w ++ buf.drop w.length

/-- `MSCInterface.proc_receive_cbw_callback`: on completion of the CBW
OUT transfer, parse `rx_data` and run `handle_cbw` when still in the
CMD stage. -/
def proc_receive_cbw_callback (oracle : Msc.StorageOutcome) (s : Msc.MSC) :
    Msc.MSC :=
  if s.stage = Msc.Stage.cmd then
    handle_cbw oracle { s with cbw := Msc.cbw_from_binary s.rx_data }
  else s

/-- `MSCInterface.reset` (Reset Recovery, class request 0xFF): back to
CMD stage, clear `transferred_length`, reset the storage device,
un-stall both endpoints and re-arm the CBW transfer. -/
def reset (s : Msc.MSC) : Msc.MSC :=
  prepare_cbw
    { s with stage := Msc.Stage.cmd
             transferred_length := 0
             storage := Msc.StorageDevice.reset s.storage
             stall_in := false
             stall_out := false }

/-- The USB completion and control events that drive the transport:
completion of the CBW OUT transfer (with the bytes the host sent and
the storage outcome the SCSI dispatch would produce), completion of a
CSW IN transfer (`send_csw_callback` schedules `prepare_cbw`), the
initial arming of the CBW transfer (`get_endpoint_descriptors` /
`GET_MAX_LUN` / `try_to_prepare_cbw`), and Reset Recovery. -/
inductive Event
  | cbwDone (host : List Nat) (oracle : Msc.StorageOutcome)
  | cswSent
  | tryPrepare
  | resetRecovery

/-- One transition of the callback-driven transport. -/
def step (s : Msc.MSC) (ev : Event) : Msc.MSC :=
  match ev with
  | Event.cbwDone host oracle =>
    if s.pending_cbw then
      proc_receive_cbw_callback oracle
        { s with pending_cbw := false, rx_data := write_into host s.rx_data }
    else s
  | Event.cswSent => prepare_cbw s
  | Event.tryPrepare => prepare_cbw s
  | Event.resetRecovery => reset s

/-- The transport state reached from construction by a sequence of
events. -/
def run (es : List Event) : Msc.MSC :=
  es.foldl step Msc.init

/-- Total number of DATA-phase bytes submitted on the IN endpoint in a
submission log. -/
def sentDataBytes (l : List Msc.Tx) : Nat :=
  (l.map fun t => match t with
    | Msc.Tx.dataOut b => b.length
    | _ => 0).sum

/-- Number of CSW frames in a submission log. -/
def sentCswCount (l : List Msc.Tx) : Nat :=
  (l.filter fun t => match t with
    | Msc.Tx.cswOut _ => true
    | _ => false).length

/-- A transport state in the CMD stage with a given parsed CBW, as
`proc_receive_cbw_callback` produces it right before `handle_cbw`. -/
def mscCmdState (c : Msc.CBWRec) : Msc.MSC :=
  { Msc.init with stage := Msc.Stage.cmd
                  rx_data := List.replicate 31 0
                  cbw := c }

/-- A CBW whose signature is `0xDEADBEEF` (scenario 4 of the spec). -/
def cbwBadSig : Msc.CBWRec :=
  ⟨0xDEADBEEF, 7, 0, 0, 0, 6, List.replicate 16 0⟩

/-- A well-formed CBW addressed to LUN 1 (the device's LUN is 0). -/
def cbwWrongLun : Msc.CBWRec :=
  ⟨0x43425355, 8, 0, 0, 1, 6, List.replicate 16 0⟩

/-- A storage outcome used where the oracle is irrelevant. -/
def oracleNone : Msc.StorageOutcome :=
  Msc.StorageOutcome.resp Msc.initStorage none

/-- A well-formed CBW carrying a five-byte transfer length and an
INQUIRY command block, used for the C6 counterexample and witnesses. -/
def cbwInquiry5 : Msc.CBWRec :=
  ⟨0x43425355, 9, 5, 0x80, 0, 6,
    [0x12, 0, 0, 0, 36, 0] ++ List.replicate 10 0⟩

end Msc.MSCInterface

/-- Ceiling of a nonnegative integer divided by a positive integer equals
the `(a + b - 1) // b` idiom used by `get_n_symbols_x4`. -/
theorem ceil_div_eq_fdiv {a b : Int} (hb : 0 < b) :
    ⌈((a : Int) : ℚ) / ((b : Int) : ℚ)⌉ = Int.fdiv (a + b - 1) b := by
  have hb0 : (0 : ℚ) < (b : ℚ) := by exact_mod_cast hb
  have hfd : Int.fdiv (a + b - 1) b = (a + b - 1) / b :=
    Int.fdiv_eq_ediv _ (le_of_lt hb)
  have hmod := Int.ediv_add_emod (a + b - 1) b
  have hr0 : 0 ≤ (a + b - 1) % b := Int.emod_nonneg _ (ne_of_gt hb)
  have hrb : (a + b - 1) % b < b := Int.emod_lt_of_pos _ hb
  set q : Int := (a + b - 1) / b with hq
  have h1 : a ≤ b * q := by linarith
  have h2 : b * q < a + b := by linarith
  rw [hfd, Int.ceil_eq_iff]
  have hc1 : (b : ℚ) * (q : ℚ) < (a : ℚ) + (b : ℚ) := by exact_mod_cast h2
  have hc2 : (a : ℚ) ≤ (b : ℚ) * (q : ℚ) := by exact_mod_cast h1
  constructor
  · rw [lt_div_iff₀ hb0]
    nlinarith
  · rw [div_le_iff₀ hb0]
    nlinarith

/-- The source's `(bits + bps - 1) // bps` computes the true ceiling used
in the spec formula, so the two symbol-count definitions agree whenever
the bits-per-symbol denominator is positive. -/
theorem spec_n_symbols_x4_eq (c : Lora.Cfg) (L : Nat)
    (h : 2 * Lora.ldrInt c < (c.sf : Int)) :
    Lora.spec_n_symbols_x4 c L = Lora.get_n_symbols_x4 c L := by
  unfold Lora.spec_n_symbols_x4 Lora.get_n_symbols_x4
  have hb : (0 : Int) < 4 * ((c.sf : Int) - 2 * Lora.ldrInt c) := by linarith
  rw [ceil_div_eq_fdiv hb]
  have hcomm : 4 * ((c.sf : Int) - 2 * Lora.ldrInt c)
      = ((c.sf : Int) - 2 * Lora.ldrInt c) * 4 := by ring
  rw [hcomm]


/-- C1: for every modem configuration (with the bits-per-symbol
denominator positive, as on every real spreading factor),
`get_time_on_air_us(payload_len)` equals
`t_sym_us * n_symbols_x4 / 4` with `n_symbols_x4` given by the spec's
ceiling formula; in the SF=8 / BW=125000 / CR=5 / preamble 12 / CRC /
explicit-header example, payload length 16 gives `t_sym_us = 2048`,
`n_symbols_x4 = 197` and time-on-air 100864 microseconds. -/
theorem c1_get_time_on_air_us :
    (∀ (c : Lora.Cfg) (L : Nat), 2 * Lora.ldrInt c < (c.sf : Int) →
      Lora.get_time_on_air_us c L
        = Int.fdiv (Lora.get_t_sym_us c * Lora.spec_n_symbols_x4 c L) 4)
    ∧ Lora.get_t_sym_us Lora.sf8Cfg = 2048
    ∧ Lora.get_n_symbols_x4 Lora.sf8Cfg 16 = 197
    ∧ Lora.get_time_on_air_us Lora.sf8Cfg 16 = 100864 := by
  refine ⟨?_, by decide, by decide, by decide⟩
  intro c L h
  rw [spec_n_symbols_x4_eq c L h]
  rfl

/-- Witness for C1 at the SF=8 example configuration and payload 16. -/
theorem c1_witness :
    2 * Lora.ldrInt Lora.sf8Cfg < (Lora.sf8Cfg.sf : Int)
    ∧ Lora.get_time_on_air_us Lora.sf8Cfg 16
        = Int.fdiv (Lora.get_t_sym_us Lora.sf8Cfg
            * Lora.spec_n_symbols_x4 Lora.sf8Cfg 16) 4 :=
  ⟨by decide, c1_get_time_on_air_us.1 Lora.sf8Cfg 16 (by decide)⟩

/-- The clamped payload bits are monotone in the payload length. -/
theorem payload_bits_mono (c : Lora.Cfg) {L1 L2 : Nat} (h : L1 ≤ L2) :
    Lora.payload_bits c L1 ≤ Lora.payload_bits c L2 := by
  unfold Lora.payload_bits
  have : (L1 : Int) ≤ (L2 : Int) := by exact_mod_cast h
  linarith

/-- The symbol count is monotone (not strictly) in the payload length. -/
theorem n_symbols_x4_mono (c : Lora.Cfg)
    (h : 2 * Lora.ldrInt c < (c.sf : Int)) {L1 L2 : Nat} (hL : L1 ≤ L2) :
    Lora.get_n_symbols_x4 c L1 ≤ Lora.get_n_symbols_x4 c L2 := by
  unfold Lora.get_n_symbols_x4
  have hb : (0 : Int) < ((c.sf : Int) - 2 * Lora.ldrInt c) * 4 := by linarith
  have hmax : max (Lora.payload_bits c L1) 0 ≤ max (Lora.payload_bits c L2) 0 :=
    max_le_max (payload_bits_mono c hL) le_rfl
  have hdiv :
      Int.fdiv (max (Lora.payload_bits c L1) 0 + ((c.sf : Int) - 2 * Lora.ldrInt c) * 4 - 1)
          (((c.sf : Int) - 2 * Lora.ldrInt c) * 4)
        ≤ Int.fdiv (max (Lora.payload_bits c L2) 0 + ((c.sf : Int) - 2 * Lora.ldrInt c) * 4 - 1)
          (((c.sf : Int) - 2 * Lora.ldrInt c) * 4) := by
    rw [Int.fdiv_eq_ediv _ (le_of_lt hb), Int.fdiv_eq_ediv _ (le_of_lt hb)]
    exact Int.ediv_le_ediv hb (by linarith)
  have hcr : (0 : Int) ≤ (c.coding_rate : Int) := Int.natCast_nonneg _
  dsimp only
  linarith [mul_le_mul_of_nonneg_right hdiv hcr]

/-- Each fdiv in the time-on-air pipeline is nonnegative. -/
theorem t_sym_us_nonneg (c : Lora.Cfg) : 0 ≤ Lora.get_t_sym_us c := by
  unfold Lora.get_t_sym_us
  rw [Int.fdiv_eq_ediv _ (Int.natCast_nonneg _)]
  exact Int.ediv_nonneg (by positivity) (Int.natCast_nonneg _)

/-- C7 (amended): for every fixed configuration (with positive
bits-per-symbol denominator), `get_time_on_air_us` is monotone
nondecreasing in the payload length.  It is not strictly increasing:
see the counterexample. -/
theorem c7_time_on_air_monotone (c : Lora.Cfg)
    (h : 2 * Lora.ldrInt c < (c.sf : Int)) (L1 L2 : Nat) (hL : L1 ≤ L2) :
    Lora.get_time_on_air_us c L1 ≤ Lora.get_time_on_air_us c L2 := by
  unfold Lora.get_time_on_air_us
  have hn := n_symbols_x4_mono c h hL
  have ht := t_sym_us_nonneg c
  rw [Int.fdiv_eq_ediv _ (by norm_num), Int.fdiv_eq_ediv _ (by norm_num)]
  exact Int.ediv_le_ediv (by norm_num) (mul_le_mul_of_nonneg_left hn ht)

/-- C7 counterexample: with the power-on-reset configuration (SF=7,
BW=125000 Hz, CR=5, preamble 12, CRC on, explicit header), payload
lengths 0 and 1 have the same time-on-air (29952 us), so
`get_time_on_air_us` is not strictly increasing in the payload length. -/
theorem c7_counterexample :
    ¬ (Lora.get_time_on_air_us Lora.resetCfg 0
        < Lora.get_time_on_air_us Lora.resetCfg 1) := by decide

/-- Witness for the amended C7 at the reset configuration. -/
theorem c7_witness :
    2 * Lora.ldrInt Lora.resetCfg < (Lora.resetCfg.sf : Int)
    ∧ (0 : Nat) ≤ 1
    ∧ Lora.get_time_on_air_us Lora.resetCfg 0
        ≤ Lora.get_time_on_air_us Lora.resetCfg 1 :=
  ⟨by decide, by decide, c7_time_on_air_monotone Lora.resetCfg (by decide) 0 1 (by decide)⟩

/-- C5 (amended): `standby()` clears the receive and send state, idles
the antenna switch when one is fitted, and posts exactly one synthetic
soft-ISR edge.  Because that soft ISR runs `_radio_isr`, which stores the
current tick, `_last_irq` ends up holding the soft-ISR timestamp rather
than staying cleared at `None`. -/
theorem c5_standby (e : Lora.Env) (s : Lora.Modem) :
    (Lora.standby e s).rx = Lora.RxSt.off
    ∧ (Lora.standby e s).tx = false
    ∧ (Lora.standby e s).ant = (if s.has_ant then Lora.Ant.idle else s.ant)
    ∧ (Lora.standby e s).isr_count = s.isr_count + 1
    ∧ (Lora.standby e s).last_irq = some e.ticks := by
  unfold Lora.standby Lora.radio_isr Lora.antIdle
  by_cases h : s.has_ant <;> simp [h]

/-- C5 counterexample: after `standby()` the `_last_irq` field is not
`None` (the claim says it is cleared), because the soft ISR issued at
the end of `standby()` immediately re-populates it. -/
theorem c5_counterexample :
    (Lora.standby Lora.env0 Lora.modemBoot).last_irq ≠ none := by decide

/-- C9: `StorageDevice.reset()` assigns the attribute `sense_key`, which
no operation reads; `handle_request_sense` projects from the attribute
`sense`, so a REQUEST SENSE issued after `reset()` returns exactly the
response (and hence the same (key, ASC, ASCQ) triple) as one issued
before, for every storage state. -/
theorem c9_reset_preserves_sense (st : Msc.Storage) :
    Msc.StorageDevice.handle_request_sense (Msc.StorageDevice.reset st)
      = Msc.StorageDevice.handle_request_sense st
    ∧ (Msc.StorageDevice.reset st).sense = st.sense :=
  ⟨rfl, rfl⟩

/-- C8 (amended): a standard INQUIRY (EVPD = 0) returns exactly 36
bytes with peripheral-device type 0x00, removable bit 0x80, response
data format 2, and vendor/product/revision fields `"MPython"`,
`"MicroPython MSC"` and `"0000"` — the vendor and product fields are
zero-padded to 8 and 16 bytes by `ustruct.pack`, not space-padded. -/
theorem c8_handle_inquiry :
    (∀ (st : Msc.Storage) (cmd : List Nat),
        5 ≤ cmd.length → cmd.getD 1 0 = 0 →
        (Msc.StorageDevice.handle_inquiry st cmd).2
          = Except.ok Msc.StorageDevice.inquiryStdResponse
        ∧ (Msc.StorageDevice.handle_inquiry st cmd).1 = st)
    ∧ Msc.StorageDevice.inquiryStdResponse.length = 36
    ∧ Msc.StorageDevice.inquiryStdResponse.getD 0 99 = 0x00
    ∧ Msc.StorageDevice.inquiryStdResponse.getD 1 99 = 0x80
    ∧ Msc.StorageDevice.inquiryStdResponse.getD 3 99 = 0x02
    ∧ (Msc.StorageDevice.inquiryStdResponse.drop 8).take 8
        = Msc.StorageDevice.vendorBytes ++ [0]
    ∧ (Msc.StorageDevice.inquiryStdResponse.drop 16).take 16
        = Msc.StorageDevice.productBytes ++ [0]
    ∧ Msc.StorageDevice.inquiryStdResponse.drop 32
        = Msc.StorageDevice.revisionBytes := by
  refine ⟨?_, by decide, by decide, by decide, by decide, by decide, by decide, by decide⟩
  intro st cmd hlen hevpd
  unfold Msc.StorageDevice.handle_inquiry
  rw [if_pos hevpd]
  exact ⟨rfl, rfl⟩

/-- Witness for the amended C8 at a concrete six-byte INQUIRY command. -/
theorem c8_witness :
    5 ≤ ([0x12, 0, 0, 0, 36, 0] : List Nat).length
    ∧ ([0x12, 0, 0, 0, 36, 0] : List Nat).getD 1 0 = 0
    ∧ ((Msc.StorageDevice.handle_inquiry Msc.initStorage [0x12, 0, 0, 0, 36, 0]).2
          = Except.ok Msc.StorageDevice.inquiryStdResponse
        ∧ (Msc.StorageDevice.handle_inquiry Msc.initStorage [0x12, 0, 0, 0, 36, 0]).1
          = Msc.initStorage) :=
  ⟨by decide, by decide,
    c8_handle_inquiry.1 Msc.initStorage [0x12, 0, 0, 0, 36, 0] (by decide) (by decide)⟩

/-- C8 counterexample: the vendor field of the standard INQUIRY
response is `"MPython"` zero-padded (final byte 0x00), not the
space-padded `"MPython "` the claim states. -/
theorem c8_counterexample :
    (((Msc.StorageDevice.handle_inquiry Msc.initStorage
        [0x12, 0, 0, 0, 36, 0]).2.toOption.getD []).drop 8).take 8
      ≠ [77, 80, 121, 116, 104, 111, 110, 32] := by decide

/-- `antIdle` does not change the send flag. -/
theorem antIdle_tx (s : Lora.Modem) : (Lora.antIdle s).tx = s.tx := by
  unfold Lora.antIdle
  split <;> rfl

/-- `start_recv` does not change the send flag. -/
theorem start_recv_tx {e : Lora.Env} {t : Option Int} {cont : Bool}
    {len : Nat} {s s1 : Lora.Modem}
    (h : Lora.start_recv e t cont len s = Except.ok s1) : s1.tx = s.tx := by
  unfold Lora.start_recv at h
  split at h
  · exact absurd h (by simp)
  · cases t <;>
      simp only [Except.ok.injEq] at h <;>
      rw [← h] <;>
      split <;> rfl

/-- `check_recv` does not change the send flag. -/
theorem check_recv_tx {e : Lora.Env} {s s1 : Lora.Modem} {b : Bool}
    (h : Lora.check_recv e s = Except.ok (s1, b)) : s1.tx = s.tx := by
  unfold Lora.check_recv at h
  split at h
  · simp only [Except.ok.injEq, Prod.mk.injEq] at h
    rw [← h.1]
  · split at h
    · simp only [Except.ok.injEq, Prod.mk.injEq] at h
      rw [← h.1]
    · split at h
      · simp only [Except.ok.injEq, Prod.mk.injEq] at h
        rw [← h.1]
        unfold Lora.radio_isr Lora.end_recv
        rw [antIdle_tx]
      · split at h
        · exact absurd h (by simp)
        · rename_i s2 hs2
          simp only [Except.ok.injEq, Prod.mk.injEq] at h
          rw [← h.1]
          show s2.tx = s.tx
          exact start_recv_tx hs2

/-- The packet read-out step does not change the send flag. -/
theorem recv_irq_read_tx (e : Lora.Env) (s : Lora.Modem) :
    (Lora.recv_irq_read e s).1.tx = s.tx := by
  unfold Lora.recv_irq_read Lora.end_recv
  split
  · split
    · exact antIdle_tx _
    · rfl
  · rfl

/-- The CRC accounting step does not change the send flag. -/
theorem recv_irq_crc_tx (e : Lora.Env) (s : Lora.Modem) :
    (Lora.recv_irq_crc e s).1.tx = s.tx := by
  unfold Lora.recv_irq_crc
  rw [recv_irq_read_tx]
  split <;> rfl

/-- The IRQ-handling block of `poll_recv` does not change the send
flag. -/
theorem recv_irq_step_tx (rxMask : Nat) (e : Lora.Env) (s : Lora.Modem) :
    (Lora.recv_irq_step rxMask e s).1.tx = s.tx := by
  unfold Lora.recv_irq_step
  split
  · rw [recv_irq_crc_tx]
  · rfl

/-- `poll_recv` does not change the send flag. -/
theorem poll_recv_tx {rxMask : Nat} {e : Lora.Env} {s s1 : Lora.Modem}
    {r : Lora.RecvPoll}
    (h : Lora.poll_recv rxMask e s = Except.ok (s1, r)) : s1.tx = s.tx := by
  unfold Lora.poll_recv at h
  split at h
  · simp only [Except.ok.injEq, Prod.mk.injEq] at h
    rw [← h.1]
  · split at h
    · simp only [Except.ok.injEq, Prod.mk.injEq] at h
      rw [← h.1]
    · split at h
      · exact absurd h (by simp)
      · rename_i r2 hr2
        obtain ⟨r2s, r2b⟩ := r2
        simp only [Except.ok.injEq, Prod.mk.injEq] at h
        rw [← h.1]
        have := check_recv_tx hr2
        rw [this, recv_irq_step_tx]

/-- Case analysis of `poll_send`: a completed result implies the send
flag was set and is now cleared; any other result leaves it unchanged. -/
theorem poll_send_tx {txMask : Nat} {e : Lora.Env} {s s1 : Lora.Modem}
    {r : Lora.SendPoll}
    (h : Lora.poll_send txMask e s = Except.ok (s1, r)) :
    (Lora.isCompleted r = true → s1.tx = false)
    ∧ (Lora.isCompleted r = false → s1.tx = s.tx) := by
  unfold Lora.poll_send at h
  split at h
  · rename_i htx
    simp only [Except.ok.injEq, Prod.mk.injEq] at h
    constructor
    · intro hc
      rw [← h.2] at hc
      exact absurd hc (by simp [Lora.isCompleted])
    · intro _
      rw [← h.1]
  · split at h
    · simp only [Except.ok.injEq, Prod.mk.injEq] at h
      constructor
      · intro hc
        rw [← h.2] at hc
        exact absurd hc (by simp [Lora.isCompleted])
      · intro _
        rw [← h.1]
    · split at h
      · exact absurd h (by simp)
      · rename_i r2 hr2
        obtain ⟨r2s, r2b⟩ := r2
        simp only [Except.ok.injEq, Prod.mk.injEq] at h
        constructor
        · intro _
          rw [← h.1]
          have := check_recv_tx hr2
          rw [this, antIdle_tx]
        · intro hc
          rw [← h.2] at hc
          exact absurd hc (by simp [Lora.isCompleted])

/-- In a run of `poll_send`/`poll_recv` calls, the number of completion
timestamps returned is at most one if a send is in flight, and zero
otherwise. -/
theorem runPolls_completed_le (txMask rxMask : Nat) :
    ∀ (ops : List Lora.PollOp) (s : Lora.Modem),
      Lora.completedCount (Lora.runPolls txMask rxMask ops s)
        ≤ (if s.tx then 1 else 0) := by
  intro ops
  induction ops with
  | nil => intro s; simp [Lora.runPolls, Lora.completedCount]
  | cons op rest ih =>
    intro s
    cases op with
    | send e =>
      unfold Lora.runPolls
      cases hps : Lora.poll_send txMask e s with
      | error u => simp [Lora.completedCount]
      | ok p =>
        obtain ⟨s', r⟩ := p
        have hcase := poll_send_tx hps
        cases hr : Lora.isCompleted r with
        | true =>
          have hs' : s'.tx = false := hcase.1 hr
          have htail := ih s'
          rw [hs'] at htail
          simp only [if_neg (by simp : ¬ (false = true))] at htail
          unfold Lora.completedCount at htail ⊢
          simp only [List.filter, hr, List.length_cons]
          have hstx : s.tx = true := by
            by_contra hc
            have hfalse : s.tx = false := by
              cases htx2 : s.tx
              · rfl
              · exact absurd htx2 hc
            unfold Lora.poll_send at hps
            rw [if_pos hfalse] at hps
            simp only [Except.ok.injEq, Prod.mk.injEq] at hps
            rw [← hps.2] at hr
            simp [Lora.isCompleted] at hr
          rw [hstx]
          simpa using htail
        | false =>
          have hs' : s'.tx = s.tx := hcase.2 hr
          have htail := ih s'
          rw [hs'] at htail
          unfold Lora.completedCount at htail ⊢
          simp only [List.filter, hr]
          exact htail
    | recv e =>
      unfold Lora.runPolls
      cases hpr : Lora.poll_recv rxMask e s with
      | error u => simp [Lora.completedCount]
      | ok p =>
        obtain ⟨s', r⟩ := p
        have hs' : s'.tx = s.tx := poll_recv_tx hpr
        have htail := ih s'
        rw [hs'] at htail
        exact htail

/-- C4: when a send is in flight and the TX-complete IRQ flag is set,
the next `poll_send` call that returns yields the completion timestamp
(`_last_irq` if the ISR recorded one, else the current tick) and clears
the send flag; when no send is in flight, `poll_send` returns Idle
(False) and changes nothing; and over any sequence of
`poll_send`/`poll_recv` calls the completion timestamp is returned at
most once. -/
theorem c4_poll_send_exactly_once (txMask rxMask : Nat) :
    (∀ (e : Lora.Env) (s s' : Lora.Modem) (r : Lora.SendPoll),
        s.tx = true → s.irq_flags &&& txMask ≠ 0 →
        Lora.poll_send txMask e s = Except.ok (s', r) →
        r = Lora.SendPoll.completed (Lora.get_last_irq e s) ∧ s'.tx = false)
    ∧ (∀ (e : Lora.Env) (s : Lora.Modem), s.tx = false →
        Lora.poll_send txMask e s = Except.ok (s, Lora.SendPoll.idle))
    ∧ (∀ (ops : List Lora.PollOp) (s : Lora.Modem),
        Lora.completedCount (Lora.runPolls txMask rxMask ops s) ≤ 1) := by
  refine ⟨?_, ?_, ?_⟩
  · intro e s s' r htx hflags h
    have hcase := poll_send_tx h
    unfold Lora.poll_send at h
    rw [if_neg (by simp [htx]), if_neg hflags] at h
    split at h
    · exact absurd h (by simp)
    · simp only [Except.ok.injEq, Prod.mk.injEq] at h
      refine ⟨h.2.symm, ?_⟩
      exact hcase.1 (by rw [← h.2]; rfl)
  · intro e s htx
    unfold Lora.poll_send
    rw [if_pos htx]
  · intro ops s
    calc Lora.completedCount (Lora.runPolls txMask rxMask ops s)
        ≤ (if s.tx then 1 else 0) := runPolls_completed_le txMask rxMask ops s
      _ ≤ 1 := by split <;> omega

/-- Witness for C4: a concrete completed send observed by `poll_send`. -/
theorem c4_witness :
    Lora.modemSending.tx = true
    ∧ Lora.modemSending.irq_flags &&& 1 ≠ 0
    ∧ (Lora.SendPoll.completed 55
        = Lora.SendPoll.completed (Lora.get_last_irq Lora.env0 Lora.modemSending)
      ∧ Lora.modemSent.tx = false) :=
  ⟨rfl, by decide,
    (c4_poll_send_exactly_once 1 1).1 Lora.env0 Lora.modemSending Lora.modemSent
      (Lora.SendPoll.completed 55) rfl (by decide) (by decide)⟩

/-- When `validate_cbw` raises, `handle_cbw` stalls both endpoints,
logs the error, and changes nothing else. -/
theorem handle_cbw_of_error (o : Msc.StorageOutcome) (s : Msc.MSC)
    (e : Msc.BadCbwErr)
    (h : Msc.MSCInterface.validate_cbw
        { s with cswTag := s.cbw.dCBWTag, cswResidue := 0, cswStatus := 0 }
      = Except.error e) :
    Msc.MSCInterface.handle_cbw o s
      = { s with cswTag := s.cbw.dCBWTag, cswResidue := 0, cswStatus := 0,
                 stall_in := true, stall_out := true,
                 errors := s.errors ++ [e] } := by
  unfold Msc.MSCInterface.handle_cbw
  dsimp only
  rw [h]

/-- C2 (amended): a CBW whose buffer length is not 31 or whose signature
is not `0x43425355` makes `handle_cbw` stall both bulk endpoints and
send neither data nor a CSW; the transport stage, however, is left at
CMD — the code never assigns `MSC_STAGE_NEED_RESET`. -/
theorem c2_invalid_cbw_stalls (o : Msc.StorageOutcome) (s : Msc.MSC)
    (hstage : s.stage = Msc.Stage.cmd)
    (hbad : s.rx_data.length ≠ 31 ∨ s.cbw.dCBWSignature ≠ 0x43425355) :
    (Msc.MSCInterface.handle_cbw o s).stall_in = true
    ∧ (Msc.MSCInterface.handle_cbw o s).stall_out = true
    ∧ (Msc.MSCInterface.handle_cbw o s).sent = s.sent
    ∧ (Msc.MSCInterface.handle_cbw o s).stage = Msc.Stage.cmd := by
  by_cases hlen : s.rx_data.length = 31
  · rcases hbad with h | h
    · exact absurd hlen h
    · rw [handle_cbw_of_error o s Msc.BadCbwErr.wrongSig ?_]
      · exact ⟨rfl, rfl, rfl, hstage⟩
      · unfold Msc.MSCInterface.validate_cbw
        rw [if_neg (not_ne_iff.mpr hstage), if_neg (not_ne_iff.mpr hlen), if_pos h]
  · rw [handle_cbw_of_error o s Msc.BadCbwErr.wrongLength ?_]
    · exact ⟨rfl, rfl, rfl, hstage⟩
    · unfold Msc.MSCInterface.validate_cbw
      rw [if_neg (not_ne_iff.mpr hstage), if_pos hlen]

/-- Witness for the amended C2: the signature-`0xDEADBEEF` CBW of
spec scenario 4. -/
theorem c2_witness :
    (Msc.MSCInterface.mscCmdState Msc.MSCInterface.cbwBadSig).stage = Msc.Stage.cmd
    ∧ ((Msc.MSCInterface.handle_cbw Msc.MSCInterface.oracleNone
          (Msc.MSCInterface.mscCmdState Msc.MSCInterface.cbwBadSig)).stall_in = true
      ∧ (Msc.MSCInterface.handle_cbw Msc.MSCInterface.oracleNone
          (Msc.MSCInterface.mscCmdState Msc.MSCInterface.cbwBadSig)).stall_out = true
      ∧ (Msc.MSCInterface.handle_cbw Msc.MSCInterface.oracleNone
          (Msc.MSCInterface.mscCmdState Msc.MSCInterface.cbwBadSig)).sent
          = (Msc.MSCInterface.mscCmdState Msc.MSCInterface.cbwBadSig).sent
      ∧ (Msc.MSCInterface.handle_cbw Msc.MSCInterface.oracleNone
          (Msc.MSCInterface.mscCmdState Msc.MSCInterface.cbwBadSig)).stage
          = Msc.Stage.cmd) :=
  ⟨rfl, c2_invalid_cbw_stalls Msc.MSCInterface.oracleNone
    (Msc.MSCInterface.mscCmdState Msc.MSCInterface.cbwBadSig) rfl
    (Or.inr (by decide))⟩

/-- C2 counterexample: after handling the signature-`0xDEADBEEF` CBW the
transport stage is not `NEED_RESET` (it stays at CMD), contradicting
the claimed post-state. -/
theorem c2_counterexample :
    (Msc.MSCInterface.handle_cbw Msc.MSCInterface.oracleNone
      (Msc.MSCInterface.mscCmdState Msc.MSCInterface.cbwBadSig)).stage
      ≠ Msc.Stage.needReset := by decide

/-- C3 (amended): a CBW that passes the Valid checks (length 31, good
signature) but fails a Meaningful check (LUN > 15, CB length outside
1..16, or LUN different from the device's LUN) also raises `BadCbw`, so
`handle_cbw` stalls both bulk endpoints and sends no CSW at all — it
does not reply with a FAILED CSW. -/
theorem c3_not_meaningful_stalls (o : Msc.StorageOutcome) (s : Msc.MSC)
    (hstage : s.stage = Msc.Stage.cmd)
    (hlen : s.rx_data.length = 31)
    (hsig : s.cbw.dCBWSignature = 0x43425355)
    (hbad : s.cbw.bCBWLUN > 15
      ∨ ¬(0 < s.cbw.bCBWCBLength ∧ s.cbw.bCBWCBLength < 17)
      ∨ s.cbw.bCBWLUN ≠ s.lun) :
    (Msc.MSCInterface.handle_cbw o s).stall_in = true
    ∧ (Msc.MSCInterface.handle_cbw o s).stall_out = true
    ∧ (Msc.MSCInterface.handle_cbw o s).sent = s.sent
    ∧ (Msc.MSCInterface.handle_cbw o s).stage = Msc.Stage.cmd := by
  by_cases hm : s.cbw.bCBWLUN > 15
      ∨ ¬(0 < s.cbw.bCBWCBLength ∧ s.cbw.bCBWCBLength < 17)
  · rw [handle_cbw_of_error o s Msc.BadCbwErr.notMeaningful ?_]
    · exact ⟨rfl, rfl, rfl, hstage⟩
    · unfold Msc.MSCInterface.validate_cbw
      rw [if_neg (not_ne_iff.mpr hstage), if_neg (not_ne_iff.mpr hlen),
        if_neg (not_ne_iff.mpr hsig), if_pos hm]
  · have hlun : s.cbw.bCBWLUN ≠ s.lun := by tauto
    rw [handle_cbw_of_error o s Msc.BadCbwErr.wrongLun ?_]
    · exact ⟨rfl, rfl, rfl, hstage⟩
    · unfold Msc.MSCInterface.validate_cbw
      rw [if_neg (not_ne_iff.mpr hstage), if_neg (not_ne_iff.mpr hlen),
        if_neg (not_ne_iff.mpr hsig), if_neg hm, if_pos hlun]

/-- Witness for the amended C3: a well-formed CBW addressed to LUN 1
while the device's LUN is 0. -/
theorem c3_witness :
    (Msc.MSCInterface.mscCmdState Msc.MSCInterface.cbwWrongLun).cbw.bCBWLUN
        ≠ (Msc.MSCInterface.mscCmdState Msc.MSCInterface.cbwWrongLun).lun
    ∧ ((Msc.MSCInterface.handle_cbw Msc.MSCInterface.oracleNone
          (Msc.MSCInterface.mscCmdState Msc.MSCInterface.cbwWrongLun)).stall_in = true
      ∧ (Msc.MSCInterface.handle_cbw Msc.MSCInterface.oracleNone
          (Msc.MSCInterface.mscCmdState Msc.MSCInterface.cbwWrongLun)).stall_out = true
      ∧ (Msc.MSCInterface.handle_cbw Msc.MSCInterface.oracleNone
          (Msc.MSCInterface.mscCmdState Msc.MSCInterface.cbwWrongLun)).sent
          = (Msc.MSCInterface.mscCmdState Msc.MSCInterface.cbwWrongLun).sent
      ∧ (Msc.MSCInterface.handle_cbw Msc.MSCInterface.oracleNone
          (Msc.MSCInterface.mscCmdState Msc.MSCInterface.cbwWrongLun)).stage
          = Msc.Stage.cmd) :=
  ⟨by decide, c3_not_meaningful_stalls Msc.MSCInterface.oracleNone
    (Msc.MSCInterface.mscCmdState Msc.MSCInterface.cbwWrongLun) rfl (by decide)
    (by decide) (Or.inr (Or.inr (by decide)))⟩

/-- C3 counterexample: for the valid-but-wrong-LUN CBW the transport
stalls the IN endpoint and submits nothing at all (in particular no
FAILED CSW), contradicting the claimed behaviour. -/
theorem c3_counterexample :
    (Msc.MSCInterface.handle_cbw Msc.MSCInterface.oracleNone
      (Msc.MSCInterface.mscCmdState Msc.MSCInterface.cbwWrongLun)).stall_in = true
    ∧ Msc.MSCInterface.sentCswCount
        (Msc.MSCInterface.handle_cbw Msc.MSCInterface.oracleNone
          (Msc.MSCInterface.mscCmdState Msc.MSCInterface.cbwWrongLun)).sent = 0 := by
  constructor <;> decide

/-- `send_csw` never touches the CBW receive buffer, the pending-CBW
flag, or the error log. -/
theorem send_csw_frame : ∀ (n : Nat) (s : Msc.MSC),
    (Msc.MSCInterface.send_csw n s).rx_data = s.rx_data
    ∧ (Msc.MSCInterface.send_csw n s).pending_cbw = s.pending_cbw
    ∧ (Msc.MSCInterface.send_csw n s).errors = s.errors := by
  intro n
  induction n with
  | zero => intro s; exact ⟨rfl, rfl, rfl⟩
  | succ k ih =>
    intro s
    unfold Msc.MSCInterface.send_csw
    dsimp only
    split_ifs <;> first
      | exact ⟨rfl, rfl, rfl⟩
      | exact ⟨(ih _).1, (ih _).2.1, (ih _).2.2⟩

/-- `proc_transfer_data` never touches the CBW receive buffer, the
pending-CBW flag, or the error log. -/
theorem proc_transfer_data_frame : ∀ (n x : Nat) (s : Msc.MSC),
    (Msc.MSCInterface.proc_transfer_data n x s).rx_data = s.rx_data
    ∧ (Msc.MSCInterface.proc_transfer_data n x s).pending_cbw = s.pending_cbw
    ∧ (Msc.MSCInterface.proc_transfer_data n x s).errors = s.errors := by
  intro n
  induction n with
  | zero => intro x s; exact ⟨rfl, rfl, rfl⟩
  | succ k ih =>
    intro x s
    unfold Msc.MSCInterface.proc_transfer_data
    dsimp only
    split_ifs <;> first
      | exact ⟨rfl, rfl, rfl⟩
      | exact ⟨(send_csw_frame 2 _).1, (send_csw_frame 2 _).2.1,
          (send_csw_frame 2 _).2.2⟩
      | exact ⟨(ih _ _).1, (ih _ _).2.1, (ih _ _).2.2⟩

/-- `validate_cbw` leaves the receive buffer, pending flag and error log
of the state it returns unchanged. -/
theorem validate_cbw_ghost {s s1 : Msc.MSC} {st : Nat}
    (h : Msc.MSCInterface.validate_cbw s = Except.ok (s1, st)) :
    s1.rx_data = s.rx_data ∧ s1.pending_cbw = s.pending_cbw
    ∧ s1.errors = s.errors := by
  unfold Msc.MSCInterface.validate_cbw at h
  split_ifs at h <;>
    (simp only [Except.ok.injEq, Prod.mk.injEq] at h
     rw [← h.1]
     exact ⟨rfl, rfl, rfl⟩)

/-- With a 31-byte receive buffer, `validate_cbw` can raise any
`BadCbw` except the wrong-length one. -/
theorem validate_cbw_not_wrongLength {s : Msc.MSC} {e : Msc.BadCbwErr}
    (hlen : s.rx_data.length = 31)
    (h : Msc.MSCInterface.validate_cbw s = Except.error e) :
    e ≠ Msc.BadCbwErr.wrongLength := by
  unfold Msc.MSCInterface.validate_cbw at h
  split_ifs at h <;>
    first
      | (simp only [Except.error.injEq] at h
         subst h
         decide)
      | exact absurd hlen (by assumption)

/-- Projection form of `send_csw_frame`. -/
theorem send_csw_rx (n : Nat) (s0 : Msc.MSC) :
    (Msc.MSCInterface.send_csw n s0).rx_data = s0.rx_data :=
  (send_csw_frame n s0).1

/-- Projection form of `send_csw_frame`. -/
theorem send_csw_pending (n : Nat) (s0 : Msc.MSC) :
    (Msc.MSCInterface.send_csw n s0).pending_cbw = s0.pending_cbw :=
  (send_csw_frame n s0).2.1

/-- Membership form of `send_csw_frame` for the error log. -/
theorem send_csw_errors_mem {e : Msc.BadCbwErr} {n : Nat} {s0 : Msc.MSC}
    (he : e ∈ (Msc.MSCInterface.send_csw n s0).errors) : e ∈ s0.errors := by
  rw [(send_csw_frame n s0).2.2] at he
  exact he

/-- Projection form of `proc_transfer_data_frame`. -/
theorem proc_transfer_rx (n x : Nat) (s0 : Msc.MSC) :
    (Msc.MSCInterface.proc_transfer_data n x s0).rx_data = s0.rx_data :=
  (proc_transfer_data_frame n x s0).1

/-- Projection form of `proc_transfer_data_frame`. -/
theorem proc_transfer_pending (n x : Nat) (s0 : Msc.MSC) :
    (Msc.MSCInterface.proc_transfer_data n x s0).pending_cbw = s0.pending_cbw :=
  (proc_transfer_data_frame n x s0).2.1

/-- Membership form of `proc_transfer_data_frame` for the error log. -/
theorem proc_transfer_errors_mem {e : Msc.BadCbwErr} {n x : Nat} {s0 : Msc.MSC}
    (he : e ∈ (Msc.MSCInterface.proc_transfer_data n x s0).errors) :
    e ∈ s0.errors := by
  rw [(proc_transfer_data_frame n x s0).2.2] at he
  exact he

/-- `handle_cbw` preserves the receive buffer and pending flag, and the
only errors it can add to the log come from `validate_cbw`. -/
theorem handle_cbw_ghost (o : Msc.StorageOutcome) (s : Msc.MSC) :
    (Msc.MSCInterface.handle_cbw o s).rx_data = s.rx_data
    ∧ (Msc.MSCInterface.handle_cbw o s).pending_cbw = s.pending_cbw
    ∧ ∀ e, e ∈ (Msc.MSCInterface.handle_cbw o s).errors →
        e ∈ s.errors
        ∨ Msc.MSCInterface.validate_cbw
            { s with cswTag := s.cbw.dCBWTag, cswResidue := 0, cswStatus := 0 }
          = Except.error e := by
  unfold Msc.MSCInterface.handle_cbw
  dsimp only
  cases hv : Msc.MSCInterface.validate_cbw
      { s with cswTag := s.cbw.dCBWTag, cswResidue := 0, cswStatus := 0 } with
  | error e0 =>
    refine ⟨rfl, rfl, ?_⟩
    intro e he
    simp only [List.mem_append, List.mem_singleton] at he
    rcases he with he | he
    · exact Or.inl he
    · subst he
      exact Or.inr rfl
  | ok p =>
    obtain ⟨s1, status⟩ := p
    have hgr : s1.rx_data = s.rx_data := (validate_cbw_ghost hv).1
    have hgp : s1.pending_cbw = s.pending_cbw := (validate_cbw_ghost hv).2.1
    have hge : s1.errors = s.errors := (validate_cbw_ghost hv).2.2
    dsimp only
    split_ifs with h1
    · exact ⟨(send_csw_rx 2 _).trans hgr, (send_csw_pending 2 _).trans hgp,
        fun e he => Or.inl (by
          have h4 := send_csw_errors_mem he
          have h5 : e ∈ s1.errors := h4
          rw [hge] at h5
          exact h5)⟩
    · cases o with
      | err st1 code =>
        dsimp only
        exact ⟨(send_csw_rx 2 _).trans hgr, (send_csw_pending 2 _).trans hgp,
          fun e he => Or.inl (by
            have h4 := send_csw_errors_mem he
            have h5 : e ∈ s1.errors := h4
            rw [hge] at h5
            exact h5)⟩
      | resp st1 r =>
        cases r with
        | none =>
          dsimp only
          exact ⟨(send_csw_rx 2 _).trans hgr, (send_csw_pending 2 _).trans hgp,
            fun e he => Or.inl (by
              have h4 := send_csw_errors_mem he
              have h5 : e ∈ s1.errors := h4
              rw [hge] at h5
              exact h5)⟩
        | some response =>
          dsimp only
          split_ifs with h2 h3
          · exact ⟨(send_csw_rx 2 _).trans hgr, (send_csw_pending 2 _).trans hgp,
              fun e he => Or.inl (by
                have h4 := send_csw_errors_mem he
                have h5 : e ∈ s1.errors := h4
                rw [hge] at h5
                exact h5)⟩
          · exact ⟨(send_csw_rx 2 _).trans hgr, (send_csw_pending 2 _).trans hgp,
              fun e he => Or.inl (by
                have h4 := send_csw_errors_mem he
                have h5 : e ∈ s1.errors := h4
                rw [hge] at h5
                exact h5)⟩
          · exact ⟨(proc_transfer_rx _ 0 _).trans hgr,
              (proc_transfer_pending _ 0 _).trans hgp,
              fun e he => Or.inl (by
                have h4 := proc_transfer_errors_mem he
                have h5 : e ∈ s1.errors := h4
                rw [hge] at h5
                exact h5)⟩


/-- A host write into the fixed CBW buffer preserves its length. -/
theorem write_into_length (host buf : List Nat) :
    (Msc.MSCInterface.write_into host buf).length = buf.length := by
  unfold Msc.MSCInterface.write_into
  dsimp only
  simp only [List.length_append, List.length_take, List.length_drop]
  omega

/-- `handle_cbw` run on a state with a 31-byte receive buffer never logs
the wrong-length `BadCbw`, keeps the buffer, and keeps the pending
flag. -/
theorem handle_cbw_inv (o : Msc.StorageOutcome) (s0 : Msc.MSC)
    (hlen : s0.rx_data.length = 31)
    (herr : Msc.BadCbwErr.wrongLength ∉ s0.errors) :
    (Msc.MSCInterface.handle_cbw o s0).pending_cbw = s0.pending_cbw
    ∧ (Msc.MSCInterface.handle_cbw o s0).rx_data = s0.rx_data
    ∧ Msc.BadCbwErr.wrongLength ∉ (Msc.MSCInterface.handle_cbw o s0).errors := by
  obtain ⟨ha, hb, hc⟩ := handle_cbw_ghost o s0
  refine ⟨hb, ha, ?_⟩
  intro hmem
  rcases hc _ hmem with hin | hval
  · exact herr hin
  · refine absurd rfl (validate_cbw_not_wrongLength ?_ hval)
    exact hlen

/-- One transport event preserves the C10 invariant: whenever a CBW OUT
transfer is outstanding the receive buffer is 31 bytes long, and the
wrong-length `BadCbw` never appears in the error log. -/
theorem step_inv (s : Msc.MSC) (ev : Msc.MSCInterface.Event)
    (h1 : s.pending_cbw = true → s.rx_data.length = 31)
    (h2 : Msc.BadCbwErr.wrongLength ∉ s.errors) :
    ((Msc.MSCInterface.step s ev).pending_cbw = true →
      (Msc.MSCInterface.step s ev).rx_data.length = 31)
    ∧ Msc.BadCbwErr.wrongLength ∉ (Msc.MSCInterface.step s ev).errors := by
  cases ev with
  | cbwDone host o =>
    unfold Msc.MSCInterface.step
    dsimp only
    split_ifs with hp
    · unfold Msc.MSCInterface.proc_receive_cbw_callback
      dsimp only
      have hlen2 : (Msc.MSCInterface.write_into host s.rx_data).length = 31 := by
        rw [write_into_length]
        exact h1 hp
      split_ifs with hst
      · obtain ⟨hpa, hpb, hpc⟩ := handle_cbw_inv o
          { s with pending_cbw := false,
                   rx_data := Msc.MSCInterface.write_into host s.rx_data,
                   cbw := Msc.cbw_from_binary
                     ({ s with pending_cbw := false,
                               rx_data := Msc.MSCInterface.write_into host s.rx_data
                        } : Msc.MSC).rx_data }
          hlen2 h2
        refine ⟨?_, hpc⟩
        intro hpend
        have hfalse : false = true := (hpa.symm.trans hpend :)
        exact absurd hfalse (by decide)
      · exact ⟨fun _ => hlen2, h2⟩
    · exact ⟨h1, h2⟩
  | cswSent =>
    unfold Msc.MSCInterface.step Msc.MSCInterface.prepare_cbw
    exact ⟨fun _ => by simp, h2⟩
  | tryPrepare =>
    unfold Msc.MSCInterface.step Msc.MSCInterface.prepare_cbw
    exact ⟨fun _ => by simp, h2⟩
  | resetRecovery =>
    unfold Msc.MSCInterface.step Msc.MSCInterface.reset
      Msc.MSCInterface.prepare_cbw
    exact ⟨fun _ => by simp, h2⟩

/-- C10: in every reachable transport state the 31-byte CBW buffer
allocated by `prepare_cbw` still has length 31 whenever a CBW transfer
is outstanding (`validate_cbw` tests `len(self.rx_data)`, not the number
of bytes the host transferred), so the "Invalid: Wrong CBW length"
`BadCbw` branch is unreachable: it never appears in the error log of any
run. -/
theorem c10_wrong_length_unreachable (es : List Msc.MSCInterface.Event) :
    ((Msc.MSCInterface.run es).pending_cbw = true →
      (Msc.MSCInterface.run es).rx_data.length = 31)
    ∧ Msc.BadCbwErr.wrongLength ∉ (Msc.MSCInterface.run es).errors := by
  suffices h : ∀ (s0 : Msc.MSC),
      ((s0.pending_cbw = true → s0.rx_data.length = 31)
        ∧ Msc.BadCbwErr.wrongLength ∉ s0.errors) →
      (((es.foldl Msc.MSCInterface.step s0).pending_cbw = true →
          (es.foldl Msc.MSCInterface.step s0).rx_data.length = 31)
        ∧ Msc.BadCbwErr.wrongLength ∉ (es.foldl Msc.MSCInterface.step s0).errors) by
    exact h Msc.init ⟨fun hp => absurd hp (by decide), by decide⟩
  induction es with
  | nil => intro s0 h0; exact h0
  | cons ev rest ih =>
    intro s0 h0
    exact ih _ (step_inv s0 ev h0.1 h0.2)

/-- Witness for C10 on a concrete event sequence: arm the CBW transfer,
then complete it with a host frame of 31 arbitrary bytes. -/
theorem c10_witness :
    ((Msc.MSCInterface.run [Msc.MSCInterface.Event.tryPrepare,
        Msc.MSCInterface.Event.cbwDone (List.replicate 31 7)
          Msc.MSCInterface.oracleNone]).pending_cbw = true →
      (Msc.MSCInterface.run [Msc.MSCInterface.Event.tryPrepare,
        Msc.MSCInterface.Event.cbwDone (List.replicate 31 7)
          Msc.MSCInterface.oracleNone]).rx_data.length = 31)
    ∧ Msc.BadCbwErr.wrongLength ∉ (Msc.MSCInterface.run
        [Msc.MSCInterface.Event.tryPrepare,
         Msc.MSCInterface.Event.cbwDone (List.replicate 31 7)
           Msc.MSCInterface.oracleNone]).errors :=
  c10_wrong_length_unreachable [Msc.MSCInterface.Event.tryPrepare,
    Msc.MSCInterface.Event.cbwDone (List.replicate 31 7)
      Msc.MSCInterface.oracleNone]

/-- Every opcode with a handler is in the `scsi_commands` table. -/
theorem scsi_handled_subset {op : Nat}
    (h : op ∈ Msc.StorageDevice.scsi_handled) :
    op ∈ Msc.StorageDevice.scsi_opcodes := by
  simp only [Msc.StorageDevice.scsi_handled, List.mem_cons,
    List.not_mem_nil, or_false] at h
  simp only [Msc.StorageDevice.scsi_opcodes, List.mem_cons, List.not_mem_nil,
    or_false]
  tauto

/-- `validate_cmd` accepts any command whose opcode has a handler. -/
theorem validate_cmd_snd {st : Msc.Storage} {cmd : List Nat}
    (hop : cmd.headD 0 ∈ Msc.StorageDevice.scsi_handled) :
    (Msc.StorageDevice.validate_cmd st cmd).2 = true := by
  unfold Msc.StorageDevice.validate_cmd
  dsimp only
  rw [if_neg (not_not_intro (scsi_handled_subset hop)), if_neg (not_not_intro hop)]

/-- The DATA phase driven by `proc_transfer_data` for a response that
fits the host's transfer length, starting with zeroed counters and no
long operation: the response is padded to the full
`dCBWDataTransferLength`, submitted, and followed by exactly one CSW
with residue `dCBWDataTransferLength - data_len` and status PASSED. -/
theorem proc_data_phase (cbwv : Msc.CBWRec) (rx : List Nat) (pend : Bool)
    (tag stat : Nat) (si so : Bool) (dat : List Nat) (lunv : Nat)
    (stor : Msc.Storage) (sentv : List Msc.Tx) (errs : List Msc.BadCbwErr)
    (hlo : stor.long_op = [])
    (hd : dat ≠ [])
    (hdT : dat.length ≤ cbwv.dCBWDataTransferLength) :
    Msc.MSCInterface.sentDataBytes
        (Msc.MSCInterface.proc_transfer_data 3 0
          ⟨Msc.Stage.data, 0, rx, pend, cbwv, tag, 0, stat, si, so, dat, lunv,
            stor, sentv, errs⟩).sent
      = Msc.MSCInterface.sentDataBytes sentv + cbwv.dCBWDataTransferLength
    ∧ Msc.MSCInterface.sentCswCount
        (Msc.MSCInterface.proc_transfer_data 3 0
          ⟨Msc.Stage.data, 0, rx, pend, cbwv, tag, 0, stat, si, so, dat, lunv,
            stor, sentv, errs⟩).sent
      = Msc.MSCInterface.sentCswCount sentv + 1
    ∧ (Msc.MSCInterface.proc_transfer_data 3 0
          ⟨Msc.Stage.data, 0, rx, pend, cbwv, tag, 0, stat, si, so, dat, lunv,
            stor, sentv, errs⟩).cswResidue
      = (cbwv.dCBWDataTransferLength : Int) - dat.length
    ∧ (Msc.MSCInterface.proc_transfer_data 3 0
          ⟨Msc.Stage.data, 0, rx, pend, cbwv, tag, 0, stat, si, so, dat, lunv,
            stor, sentv, errs⟩).cswStatus = 0
    ∧ (Msc.MSCInterface.proc_transfer_data 3 0
          ⟨Msc.Stage.data, 0, rx, pend, cbwv, tag, 0, stat, si, so, dat, lunv,
            stor, sentv, errs⟩).stage = Msc.Stage.statusSent := by
  obtain ⟨fs, sense, skey, lop⟩ := stor
  simp only at hlo
  subst hlo
  have hdl : 0 < dat.length := List.length_pos.mpr hd
  by_cases hres : dat.length = cbwv.dCBWDataTransferLength
  · have hT0 : cbwv.dCBWDataTransferLength ≠ 0 := by omega
    have hTpos : 0 < cbwv.dCBWDataTransferLength := by omega
    have hT0i : ¬((cbwv.dCBWDataTransferLength : Int) = 0) := by
      exact_mod_cast hT0
    simp [Msc.MSCInterface.proc_transfer_data, Msc.MSCInterface.send_csw,
      Msc.MSCInterface.prepare_for_csw, Msc.MSCInterface.sentDataBytes,
      Msc.MSCInterface.sentCswCount, hdl, hd, hres, hT0, hTpos, hT0i]
  · have hlt : dat.length < cbwv.dCBWDataTransferLength := lt_of_le_of_ne hdT hres
    have hrne : ¬((cbwv.dCBWDataTransferLength : Int) - (dat.length : Int) = 0) := by
      omega
    have hsum : dat.length + (cbwv.dCBWDataTransferLength - dat.length)
        = cbwv.dCBWDataTransferLength := by omega
    have hsne : dat.length + (cbwv.dCBWDataTransferLength - dat.length) ≠ 0 := by
      omega
    have hT0 : cbwv.dCBWDataTransferLength ≠ 0 := by omega
    simp [Msc.MSCInterface.proc_transfer_data, Msc.MSCInterface.send_csw,
      Msc.MSCInterface.prepare_for_csw, Msc.MSCInterface.sentDataBytes,
      Msc.MSCInterface.sentCswCount, hdl, hd, hrne, hsum, hsne, hT0]

/-- When validation passes and the SCSI handler returns a byte string
that fits the transfer length, `handle_cbw` enters the DATA phase. -/
theorem handle_cbw_of_ok_resp (s : Msc.MSC) (st1 : Msc.Storage)
    (response : List Nat) (s1 : Msc.MSC)
    (hval : Msc.MSCInterface.validate_cbw
        { s with cswTag := s.cbw.dCBWTag, cswResidue := 0, cswStatus := 0 }
      = Except.ok (s1, 0))
    (hgt : ¬(response.length > s1.cbw.dCBWDataTransferLength))
    (hne : response.length ≠ 0) :
    Msc.MSCInterface.handle_cbw (Msc.StorageOutcome.resp st1 (some response)) s
      = Msc.MSCInterface.proc_transfer_data (st1.long_op.length + 3) 0
          { s1 with stage := Msc.Stage.data, storage := st1, data := response } := by
  unfold Msc.MSCInterface.handle_cbw
  dsimp only
  rw [hval]
  dsimp only
  rw [if_neg (by simp), if_neg hgt, if_neg hne]

/-- `validate_cbw` for a CBW passing every Valid and Meaningful check
returns the `validate_cmd` verdict (status PASSED for a handled
opcode). -/
theorem validate_cbw_passes (s : Msc.MSC)
    (hstage : s.stage = Msc.Stage.cmd)
    (hlen : s.rx_data.length = 31)
    (hsig : s.cbw.dCBWSignature = 0x43425355)
    (hm : ¬(s.cbw.bCBWLUN > 15
      ∨ ¬(0 < s.cbw.bCBWCBLength ∧ s.cbw.bCBWCBLength < 17)))
    (hlun : s.cbw.bCBWLUN = s.lun)
    (hop : (s.cbw.CBWCB.take s.cbw.bCBWCBLength).headD 0
      ∈ Msc.StorageDevice.scsi_handled) :
    Msc.MSCInterface.validate_cbw s
      = Except.ok ({ s with storage := (Msc.StorageDevice.validate_cmd s.storage
          (s.cbw.CBWCB.take s.cbw.bCBWCBLength)).1 }, 0) := by
  unfold Msc.MSCInterface.validate_cbw
  rw [if_neg (not_ne_iff.mpr hstage), if_neg (not_ne_iff.mpr hlen),
    if_neg (not_ne_iff.mpr hsig), if_neg hm, if_neg (not_ne_iff.mpr hlun)]
  dsimp only
  rw [validate_cmd_snd hop]
  rfl

/-- C6 (amended): for every CBW accepted into the DATA phase whose
handler returns `data_len` bytes with `0 < data_len ≤
dCBWDataTransferLength` and no long-operation continuation, the total
number of bytes sent to the host during the DATA phase equals
`dCBWDataTransferLength` (the response is padded with
`dCBWDataTransferLength - data_len` zero bytes, not truncated to
`min(data_len, dCBWDataTransferLength)`), and the single CSW that
follows carries `dCSWDataResidue = dCBWDataTransferLength - data_len`
(zero when `data_len = dCBWDataTransferLength`) and status PASSED. -/
theorem c6_data_phase (c : Msc.CBWRec) (st1 : Msc.Storage) (resp : List Nat)
    (hsig : c.dCBWSignature = 0x43425355)
    (hlun : c.bCBWLUN = 0)
    (hcb : 0 < c.bCBWCBLength ∧ c.bCBWCBLength < 17)
    (hop : (c.CBWCB.take c.bCBWCBLength).headD 0 ∈ Msc.StorageDevice.scsi_handled)
    (hlo : st1.long_op = [])
    (hd : resp ≠ [])
    (hdT : resp.length ≤ c.dCBWDataTransferLength) :
    Msc.MSCInterface.sentDataBytes
        (Msc.MSCInterface.handle_cbw (Msc.StorageOutcome.resp st1 (some resp))
          (Msc.MSCInterface.mscCmdState c)).sent
      = c.dCBWDataTransferLength
    ∧ (Msc.MSCInterface.handle_cbw (Msc.StorageOutcome.resp st1 (some resp))
        (Msc.MSCInterface.mscCmdState c)).cswResidue
      = (c.dCBWDataTransferLength : Int) - resp.length
    ∧ (Msc.MSCInterface.handle_cbw (Msc.StorageOutcome.resp st1 (some resp))
        (Msc.MSCInterface.mscCmdState c)).cswStatus = 0
    ∧ (Msc.MSCInterface.handle_cbw (Msc.StorageOutcome.resp st1 (some resp))
        (Msc.MSCInterface.mscCmdState c)).stage = Msc.Stage.statusSent
    ∧ Msc.MSCInterface.sentCswCount
        (Msc.MSCInterface.handle_cbw (Msc.StorageOutcome.resp st1 (some resp))
          (Msc.MSCInterface.mscCmdState c)).sent = 1 := by
  have hmn : ¬(c.bCBWLUN > 15
      ∨ ¬(0 < c.bCBWCBLength ∧ c.bCBWCBLength < 17)) := by
    intro hx
    rcases hx with hx | hx
    · omega
    · exact hx hcb
  have hval := validate_cbw_passes
    { Msc.MSCInterface.mscCmdState c with
      cswTag := (Msc.MSCInterface.mscCmdState c).cbw.dCBWTag,
      cswResidue := 0, cswStatus := 0 }
    rfl (by simp [Msc.MSCInterface.mscCmdState, Msc.init]) hsig hmn hlun hop
  have hgt : ¬(resp.length > c.dCBWDataTransferLength) := not_lt.mpr hdT
  have hne : resp.length ≠ 0 := fun h => hd (List.length_eq_zero.mp h)
  rw [handle_cbw_of_ok_resp (Msc.MSCInterface.mscCmdState c) st1 resp _ hval hgt hne]
  simp only [hlo, List.length_nil]
  have hp := proc_data_phase c (List.replicate 31 0) false c.dCBWTag 0 false false
    resp 0 st1 [] [] hlo hd hdT
  exact ⟨by simpa [Msc.MSCInterface.sentDataBytes] using hp.1, hp.2.2.1,
    hp.2.2.2.1, hp.2.2.2.2,
    by simpa [Msc.MSCInterface.sentCswCount] using hp.2.1⟩

/-- Witness for the amended C6: a CBW expecting five bytes answered by
a two-byte response. -/
theorem c6_witness :
    Msc.MSCInterface.cbwInquiry5.dCBWSignature = 0x43425355
    ∧ ([1, 2] : List Nat) ≠ []
    ∧ ([1, 2] : List Nat).length
        ≤ Msc.MSCInterface.cbwInquiry5.dCBWDataTransferLength
    ∧ (Msc.MSCInterface.sentDataBytes
          (Msc.MSCInterface.handle_cbw
            (Msc.StorageOutcome.resp Msc.initStorage (some [1, 2]))
            (Msc.MSCInterface.mscCmdState Msc.MSCInterface.cbwInquiry5)).sent
        = Msc.MSCInterface.cbwInquiry5.dCBWDataTransferLength
      ∧ (Msc.MSCInterface.handle_cbw
          (Msc.StorageOutcome.resp Msc.initStorage (some [1, 2]))
          (Msc.MSCInterface.mscCmdState Msc.MSCInterface.cbwInquiry5)).cswResidue
        = (Msc.MSCInterface.cbwInquiry5.dCBWDataTransferLength : Int)
            - ([1, 2] : List Nat).length
      ∧ (Msc.MSCInterface.handle_cbw
          (Msc.StorageOutcome.resp Msc.initStorage (some [1, 2]))
          (Msc.MSCInterface.mscCmdState Msc.MSCInterface.cbwInquiry5)).cswStatus = 0
      ∧ (Msc.MSCInterface.handle_cbw
          (Msc.StorageOutcome.resp Msc.initStorage (some [1, 2]))
          (Msc.MSCInterface.mscCmdState Msc.MSCInterface.cbwInquiry5)).stage
        = Msc.Stage.statusSent
      ∧ Msc.MSCInterface.sentCswCount
          (Msc.MSCInterface.handle_cbw
            (Msc.StorageOutcome.resp Msc.initStorage (some [1, 2]))
            (Msc.MSCInterface.mscCmdState Msc.MSCInterface.cbwInquiry5)).sent = 1) :=
  ⟨by decide, by decide, by decide,
    c6_data_phase Msc.MSCInterface.cbwInquiry5 Msc.initStorage [1, 2]
      (by decide) (by decide) (by decide) (by decide) rfl (by decide) (by decide)⟩

/-- C6 counterexample: with `dCBWDataTransferLength = 5` and a
two-byte handler response, the device sends five bytes (two data plus
three zero-padding), not `min(2, 5) = 2` as the claim states. -/
theorem c6_counterexample :
    ¬ (Msc.MSCInterface.sentDataBytes
        (Msc.MSCInterface.handle_cbw
          (Msc.StorageOutcome.resp Msc.initStorage (some [1, 2]))
          (Msc.MSCInterface.mscCmdState Msc.MSCInterface.cbwInquiry5)).sent
      = min ([1, 2] : List Nat).length
          Msc.MSCInterface.cbwInquiry5.dCBWDataTransferLength) := by decide
